import Mathlib

/-!
# Spotiviz — verification of the core algorithms

Shallow embedding of the decision logic of the Spotiviz repository:

* the skip classifier (`src/spotiviz/analysis/process/skips.py`),
* the coverage-calendar builder (`src/spotiviz/projects/preprocess.py`,
  `src/spotiviz/projects/utils.py`),
* the project configuration store
  (`src/spotiviz/projects/structure/config/properties.py`).

Modelling conventions:

* Python `int` durations and frequencies become `ℕ`; Python `float`
  percentages and margins become `ℚ` (the thresholds and the values compared
  against them are short decimal fractions, and every comparison in the
  source is a plain order comparison, so exact rational arithmetic is the
  intended semantics of the floating-point code).
* A Python value that may be `None` becomes an `Option`.
* The in-place mutation of SQLAlchemy row objects becomes a pure
  list-to-list transformation; each sequential loop of
  `_determine_skips_for_track` is one named stage function, and the function
  itself is their composition in source order.
-/

namespace Spotiviz

/-! ## Skip classifier: data model

`SkipState` mirrors the `SkipState` enum of `skips.py` (`SKIP = 1`,
`NON_SKIP = 2`); the unassigned state is `none : Option SkipState`,
mirroring the `None` / NULL `skip` column. -/

inductive SkipState where
  | SKIP : SkipState
  | NON_SKIP : SkipState
deriving DecidableEq

/-- The integer stored in the SQLite `skip` column (`SkipState.value`). -/
def SkipState.value : SkipState → ℕ
  | .SKIP => 1
  | .NON_SKIP => 2

/-- One row of the `TrackLengths` table (`project_struct.py`), restricted to
the columns the classifier reads and writes.  All rows handed to
`_determine_skips_for_track` share one `track_id`, so the id is dropped. -/
structure TrackLength where
  ms_played : ℕ
  frequency : ℕ
  percent_listens : ℚ
  skip : Option SkipState
deriving DecidableEq

/-- The five numeric thresholds.  The field names are the module-level
constant names of `skips.py`; `default_skip_config` holds the values
hard-coded there. -/
structure SkipConfig where
  MIN_TRACK_LENGTH : ℚ
  MIN_FREQUENCY : ℚ
  FREQUENCY_PERCENT_THRESHOLD : ℚ
  ABSOLUTE_NON_SKIP_FREQUENCY : ℚ
  SKIP_ERROR_MARGIN : ℚ
deriving DecidableEq

/-- The constant values of `skips.py` lines 26–47. -/
def default_skip_config : SkipConfig :=
  { MIN_TRACK_LENGTH := 10000
    MIN_FREQUENCY := 2
    FREQUENCY_PERCENT_THRESHOLD := 1/10
    ABSOLUTE_NON_SKIP_FREQUENCY := 6
    SKIP_ERROR_MARGIN := 1/50 }

/-! ## Skip classifier: the functions of `skips.py` -/

/-- `check_frequency` (`skips.py` lines 150–174): `NON_SKIP` when the
frequency clears the absolute threshold, or clears the minimum frequency
together with the percentage threshold; otherwise `None`. -/
def check_frequency (cfg : SkipConfig) (frequency : ℕ)
    (percent_listens : ℚ) : Option SkipState :=
  if cfg.ABSOLUTE_NON_SKIP_FREQUENCY ≤ (frequency : ℚ) ∨
      (cfg.MIN_FREQUENCY ≤ (frequency : ℚ) ∧
        cfg.FREQUENCY_PERCENT_THRESHOLD ≤ percent_listens)
  then some .NON_SKIP
  else none

/-- `check_duration` (`skips.py` lines 177–212).  The guard
`if shortest_non_skip and duration >= (1 - SKIP_ERROR_MARGIN) *
shortest_non_skip` tests Python truthiness, so both `None` **and `0`** fail
the first conjunct; that is modelled by the `s ≠ 0` conjunct. -/
def check_duration (cfg : SkipConfig) (duration : ℕ)
    (shortest_non_skip : Option ℕ)
    (current_state : Option SkipState) : Option SkipState :=
  if current_state = some .NON_SKIP then
    some .NON_SKIP
  else
    match shortest_non_skip with
    | some s =>
        if s ≠ 0 ∧ (1 - cfg.SKIP_ERROR_MARGIN) * (s : ℚ) ≤ (duration : ℚ)
        then some .NON_SKIP
        else current_state
    | none => current_state

/-- Stage 1 of `_determine_skips_for_track` (`skips.py` lines 116–119):
`for d in durations: d.skip = check_frequency(d.frequency,
d.percent_listens)`. -/
def frequency_stage (cfg : SkipConfig)
    (durations : List TrackLength) : List TrackLength :=
  durations.map fun d =>
    { d with skip := check_frequency cfg d.frequency d.percent_listens }

/-- Stage 2 of `_determine_skips_for_track` (`skips.py` lines 121–126): when
stage 1 set no row (`any_non_skips` is false, i.e. every `skip` is still
`None`), mark `durations[0]` `NON_SKIP` iff its `ms_played` reaches
`MIN_TRACK_LENGTH`.  The source comments "It's assumed that the longest
duration is the first one" — the index `0` is taken literally here, exactly
as in the source.  (On an empty list the source would raise `IndexError`;
the caller guarantees at least one row, and the `[]` branch below is never
reached from `determine_skips`.) -/
def fallback_stage (cfg : SkipConfig)
    (durations : List TrackLength) : List TrackLength :=
  if durations.any fun d => d.skip.isSome then
    durations
  else
    match durations with
    | [] => []
    | d0 :: rest =>
        if cfg.MIN_TRACK_LENGTH ≤ (d0.ms_played : ℚ) then
          { d0 with skip := some .NON_SKIP } :: rest
        else
          d0 :: rest

/-- Python's `min` over a non-empty list, `None` over an empty one
(`min(non_skips) if non_skips else None`, `skips.py` line 131). -/
def min_of : List ℕ → Option ℕ
  | [] => none
  | x :: xs =>
      match min_of xs with
      | none => some x
      | some m => some (min x m)

/-- `skips.py` lines 128–131: the least `ms_played` among the rows currently
labelled `NON_SKIP`, or `None` when there is none. -/
def shortest_non_skip (durations : List TrackLength) : Option ℕ :=
  min_of ((durations.filter fun d => d.skip = some .NON_SKIP).map
    fun d => d.ms_played)

/-- Stage 3 of `_determine_skips_for_track` (`skips.py` lines 133–136):
`for d in durations: d.skip = check_duration(d.ms_played,
shortest_non_skip, d.skip)`. -/
def proximity_stage (cfg : SkipConfig)
    (durations : List TrackLength) : List TrackLength :=
  durations.map fun d =>
    { d with
        skip := check_duration cfg d.ms_played (shortest_non_skip durations)
          d.skip }

/-- Stage 4 of `_determine_skips_for_track` (`skips.py` lines 138–141):
every row not labelled `NON_SKIP` becomes `SKIP`. -/
def default_stage (durations : List TrackLength) : List TrackLength :=
  durations.map fun d =>
    if d.skip ≠ some .NON_SKIP then { d with skip := some .SKIP } else d

/-- `_determine_skips_for_track` (`skips.py` lines 97–147): the four stages
in source order.  (The final loop of the source additionally replaces each
`SkipState` by `SkipState.value` for storage; that bijective re-encoding is
kept separate, in `track_skip_values`.) -/
def determine_skips_for_track (cfg : SkipConfig)
    (durations : List TrackLength) : List TrackLength :=
  default_stage (proximity_stage cfg (fallback_stage cfg
    (frequency_stage cfg durations)))

/-- The integers written back to the `skip` column by the last loop of
`_determine_skips_for_track` (`skips.py` lines 143–145). -/
def track_skip_values (cfg : SkipConfig)
    (durations : List TrackLength) : List (Option ℕ) :=
  (determine_skips_for_track cfg durations).map fun d =>
    d.skip.map SkipState.value

/-- `determine_skips` (`skips.py` lines 61–94), after the rows have been
grouped by `track_id`: every group is classified by
`_determine_skips_for_track`, which reads only the module-level constants
(`default_skip_config`).  The project's configuration store is never
consulted. -/
def determine_skips (tracks : List (List TrackLength)) :
    List (List TrackLength) :=
  tracks.map (determine_skips_for_track default_skip_config)

/-! ## The project configuration store

`properties.py` declares five named numeric settings with defaults; each
project's `Config` table stores some subset of them.  A store is modelled
as a partial map from keys to numeric values. -/

/-- The five members of the `Config` enum of `properties.py`. -/
inductive ConfigKey where
  | MIN_NON_SKIP_TRACK_LENGTH : ConfigKey
  | MIN_NON_SKIP_FREQUENCY_THRESHOLD : ConfigKey
  | MIN_NON_SKIP_FREQUENCY_PERCENT_THRESHOLD : ConfigKey
  | ABSOLUTE_NON_SKIP_FREQUENCY_THRESHOLD : ConfigKey
  | SKIP_DURATION_ERROR_MARGIN : ConfigKey
deriving DecidableEq

/-- The default value each `_Property` of `properties.py` declares. -/
def declared_default : ConfigKey → ℚ
  | .MIN_NON_SKIP_TRACK_LENGTH => 10000
  | .MIN_NON_SKIP_FREQUENCY_THRESHOLD => 2
  | .MIN_NON_SKIP_FREQUENCY_PERCENT_THRESHOLD => 1/10
  | .ABSOLUTE_NON_SKIP_FREQUENCY_THRESHOLD => 6
  | .SKIP_DURATION_ERROR_MARGIN => 1/50

/-- A project's configuration store: the values present in its `Config`
table (`ProjectConfig.properties` in `project_config.py`). -/
def ConfigStore : Type := ConfigKey → Option ℚ

/-- A store in which every required threshold is absent. -/
def empty_config_store : ConfigStore := fun _ => none

/-- Read the five thresholds out of a store, failing if any is absent. -/
def config_of_store (store : ConfigStore) : Option SkipConfig :=
  match store .MIN_NON_SKIP_TRACK_LENGTH,
      store .MIN_NON_SKIP_FREQUENCY_THRESHOLD,
      store .MIN_NON_SKIP_FREQUENCY_PERCENT_THRESHOLD,
      store .ABSOLUTE_NON_SKIP_FREQUENCY_THRESHOLD,
      store .SKIP_DURATION_ERROR_MARGIN with
  | some a, some b, some c, some d, some e => some ⟨a, b, c, d, e⟩
  | _, _, _, _, _ => none

/-- Modelled from the spec: skip classification as §6/§7 describe it —
it "consumes the five named configuration values of the project's
configuration store" and "absence of a required threshold aborts
classification for the whole project".  This definition follows the spec's
words; it exists to be compared with the behaviour of the source. -/
def determine_skips_spec (store : ConfigStore)
    (tracks : List (List TrackLength)) :
    Option (List (List TrackLength)) :=
  (config_of_store store).map fun cfg =>
    tracks.map (determine_skips_for_track cfg)

/-- The behaviour of the source `determine_skips` in the presence of a
configuration store: the function never touches the store (no line of
`skips.py` reads `ProjectConfig`) and completes normally on every input,
so with the store made explicit and `none` standing for an aborted run it
always returns `some` of `determine_skips`. -/
def determine_skips_given_store (store : ConfigStore)
    (tracks : List (List TrackLength)) :
    Option (List (List TrackLength)) :=
  some (determine_skips tracks)

/-! ## Coverage calendar: missing dates (`preprocess.py`)

Python `datetime.date` values are triples (year, month, day) compared
lexicographically; `relativedelta(years=1)` subtracts one from the year and
clamps the day-of-month down to the length of the resulting month (the
Feb 29 case). -/

/-- A `datetime.date`. -/
structure PDate where
  year : ℕ
  month : ℕ
  day : ℕ
deriving DecidableEq

/-- Python's `<=` on `datetime.date` (lexicographic on year, month, day). -/
def date_le (a b : PDate) : Bool :=
  decide (a.year < b.year ∨ (a.year = b.year ∧
    (a.month < b.month ∨ (a.month = b.month ∧ a.day ≤ b.day))))

/-- Gregorian leap-year rule. -/
def is_leap_year (y : ℕ) : Bool :=
  decide (y % 4 = 0 ∧ (y % 100 ≠ 0 ∨ y % 400 = 0))

/-- Number of days of month `m` of year `y`. -/
def days_in_month (y m : ℕ) : ℕ :=
  if m = 2 then (if is_leap_year y then 29 else 28)
  else if m = 4 ∨ m = 6 ∨ m = 9 ∨ m = 11 then 30
  else 31

/-- `end_date - relativedelta(years=1)` (`preprocess.py` line 172): the
same month and day one year earlier, with the day clamped down when the
earlier month is shorter (Feb 29 → Feb 28). -/
def minus_one_year (e : PDate) : PDate :=
  { year := e.year - 1
    month := e.month
    day := min e.day (days_in_month (e.year - 1) e.month) }

/-- `is_date_missing` (`preprocess.py` lines 158–175): `False` as soon as
one download end date `E` satisfies `E - 1 year ≤ this_date ≤ E`, `True`
when no download covers the date. -/
def is_date_missing (this_date : PDate)
    (download_dates : List PDate) : Bool :=
  !(download_dates.any fun end_date =>
    date_le (minus_one_year end_date) this_date && date_le this_date end_date)

/-- One row of the `ListenDates` table (`project_struct.py`): a day with
its `has_listen` and `is_missing` flags. -/
structure CalendarRow where
  day : PDate
  has_listen : Bool
  is_missing : Bool
deriving DecidableEq

/-- `identify_missing_dates` (`preprocess.py` lines 132–155): overwrite
every row's `is_missing` with `is_date_missing` of its day, ignoring
`has_listen`. -/
def identify_missing_dates (download_dates : List PDate)
    (all_dates : List CalendarRow) : List CalendarRow :=
  all_dates.map fun d =>
    { d with is_missing := is_date_missing d.day download_dates }

/-- Modelled from the spec: the resource file
`preprocessing/correct_date_anomalies.sql` is not among the sources; step 6
of `preprocess.main`'s docstring describes it — "where a date was marked as
has_listen = TRUE and is_missing = TRUE … is_missing is set to FALSE in
these cases". -/
def correct_date_anomalies (all_dates : List CalendarRow) :
    List CalendarRow :=
  all_dates.map fun d =>
    if d.has_listen && d.is_missing then { d with is_missing := false } else d

/-- Steps 5 and 6 of `preprocess.main`: mark missing dates, then correct
the has_listen/is_missing anomalies. -/
def missing_dates_pipeline (download_dates : List PDate)
    (all_dates : List CalendarRow) : List CalendarRow :=
  correct_date_anomalies (identify_missing_dates download_dates all_dates)

/-! ## Coverage calendar: day enumeration (`list_dates`)

`StreamingHistory.end_time` is a `DATETIME` column and the listens are
ingested by `ut.to_datetime` with minute resolution
(`streaming_history.py`), so the values `list_dates` receives are
timestamps, not dates.  A `datetime` is represented by its total number of
minutes since an epoch: `+`, `-` and comparisons of Python datetimes and
timedeltas are exactly integer arithmetic in this representation,
`timedelta(days=1)` is `1440`, and `timedelta.days` is floor division of
the minute count by `1440`.  A pure `date` is a midnight-aligned value,
i.e. a multiple of `1440`. -/

/-- `date_range` (`utils.py` lines 72–89): `n` runs over
`range(int((end_date - start_date).days))` and yields
`start_date + timedelta(n)`, i.e. `start_date` plus `n` days. -/
def date_range (start_date end_date : ℤ) : List ℤ :=
  (List.range ((end_date - start_date).fdiv 1440).toNat).map
    fun n => start_date + 1440 * n

/-- The calendar day a timestamp falls on. -/
def calendar_day (t : ℤ) : ℤ := t.fdiv 1440

/-- A `ListenDates` row as `list_dates` creates it (`ListenDates(day=d,
has_listen=d in dates_incl)`); `is_missing` is not set at this point. -/
structure ListenDateRow where
  day : ℤ
  has_listen : Bool
deriving DecidableEq

/-- `list_dates` (`preprocess.py` lines 92–129).  `dates_incl` is the
result of `select(StreamingHistory.end_time).group_by(...).order_by(...)`:
the distinct `end_time` values in ascending order.  The source evaluates
`dates_incl[0]` and `dates_incl[-1]`, which raises `IndexError` on a
project without listens — modelled by `none`.  Otherwise it emits one
`ListenDates` row per element of
`date_range(first_date, last_date + timedelta(days=1))`, with `has_listen
= d in dates_incl`. -/
def list_dates (dates_incl : List ℤ) : Option (List ListenDateRow) :=
  match dates_incl with
  | [] => none
  | d0 :: rest =>
      let last_date := (d0 :: rest).getLast (List.cons_ne_nil d0 rest)
      some ((date_range d0 (last_date + 1440)).map fun d =>
        { day := d, has_listen := decide (d ∈ d0 :: rest) })

/-- The input fields of a `TrackLengths` row: everything the classifier
reads (it only ever writes `skip`). -/
def TrackLength.inputs (d : TrackLength) : ℕ × ℕ × ℚ :=
  (d.ms_played, d.frequency, d.percent_listens)

/-! ## Lemmas about the skip classifier -/

theorem frequency_stage_factor (cfg : SkipConfig) (ds : List TrackLength) :
    frequency_stage cfg ds = (ds.map TrackLength.inputs).map
      fun t => ⟨t.1, t.2.1, t.2.2, check_frequency cfg t.2.1 t.2.2⟩ := by
  rw [frequency_stage, List.map_map]
  rfl

theorem frequency_stage_congr (cfg : SkipConfig) {ds ds' : List TrackLength}
    (h : ds.map TrackLength.inputs = ds'.map TrackLength.inputs) :
    frequency_stage cfg ds = frequency_stage cfg ds' := by
  rw [frequency_stage_factor, frequency_stage_factor, h]

theorem inputs_frequency_stage (cfg : SkipConfig) (ds : List TrackLength) :
    (frequency_stage cfg ds).map TrackLength.inputs =
      ds.map TrackLength.inputs := by
  rw [frequency_stage, List.map_map]
  rfl

theorem inputs_fallback_stage (cfg : SkipConfig) (ds : List TrackLength) :
    (fallback_stage cfg ds).map TrackLength.inputs =
      ds.map TrackLength.inputs := by
  unfold fallback_stage
  split
  · rfl
  · split
    · rfl
    · split
      · rfl
      · rfl

theorem inputs_proximity_stage (cfg : SkipConfig) (ds : List TrackLength) :
    (proximity_stage cfg ds).map TrackLength.inputs =
      ds.map TrackLength.inputs := by
  rw [proximity_stage, List.map_map]
  rfl

theorem inputs_default_stage (ds : List TrackLength) :
    (default_stage ds).map TrackLength.inputs = ds.map TrackLength.inputs := by
  rw [default_stage, List.map_map]
  refine List.map_congr_left fun d _ => ?_
  by_cases h : d.skip = some SkipState.NON_SKIP <;> simp [h, TrackLength.inputs]

theorem inputs_determine_skips_for_track (cfg : SkipConfig)
    (ds : List TrackLength) :
    (determine_skips_for_track cfg ds).map TrackLength.inputs =
      ds.map TrackLength.inputs := by
  rw [determine_skips_for_track, inputs_default_stage, inputs_proximity_stage,
    inputs_fallback_stage, inputs_frequency_stage]

theorem check_duration_degenerate (cfg : SkipConfig) (ms : ℕ)
    {sh : Option ℕ} (hsh : sh = none ∨ sh = some 0) (sk : Option SkipState) :
    check_duration cfg ms sh sk = sk := by
  rcases hsh with rfl | rfl <;>
    · unfold check_duration
      split
      · simp_all
      · simp

theorem proximity_stage_degenerate (cfg : SkipConfig) (ds : List TrackLength)
    (h : shortest_non_skip ds = none ∨ shortest_non_skip ds = some 0) :
    proximity_stage cfg ds = ds := by
  unfold proximity_stage
  have : ∀ d : TrackLength,
      ({ d with
          skip := check_duration cfg d.ms_played (shortest_non_skip ds)
            d.skip } : TrackLength) = d := by
    intro d
    rw [check_duration_degenerate cfg d.ms_played h]
  rw [List.map_congr_left fun d _ => this d]
  simp

/-! ## The claims -/

/-- C1: stage 1 (the frequency stage) labels a duration bucket `NON_SKIP`
iff `frequency ≥ ABSOLUTE_NON_SKIP_FREQUENCY_THRESHOLD` (default 6), or
`frequency ≥ MIN_NON_SKIP_FREQUENCY_THRESHOLD` (default 2) together with
`percent_of_track_listens ≥ MIN_NON_SKIP_FREQUENCY_PERCENT_THRESHOLD`
(default 0.1), all comparisons inclusive; otherwise it leaves the bucket
unset, and it does this to every bucket of the track. -/
theorem claim_C1 (cfg : SkipConfig) (freq : ℕ) (pct : ℚ)
    (ds : List TrackLength) (i : ℕ) :
    (check_frequency cfg freq pct = some .NON_SKIP ↔
      cfg.ABSOLUTE_NON_SKIP_FREQUENCY ≤ (freq : ℚ) ∨
        (cfg.MIN_FREQUENCY ≤ (freq : ℚ) ∧
          cfg.FREQUENCY_PERCENT_THRESHOLD ≤ pct)) ∧
    (check_frequency cfg freq pct = none ↔
      ¬(cfg.ABSOLUTE_NON_SKIP_FREQUENCY ≤ (freq : ℚ) ∨
        (cfg.MIN_FREQUENCY ≤ (freq : ℚ) ∧
          cfg.FREQUENCY_PERCENT_THRESHOLD ≤ pct))) ∧
    (frequency_stage cfg ds)[i]? = ds[i]?.map
      (fun d =>
        { d with skip := check_frequency cfg d.frequency d.percent_listens }) ∧
    default_skip_config.ABSOLUTE_NON_SKIP_FREQUENCY = 6 ∧
    default_skip_config.MIN_FREQUENCY = 2 ∧
    default_skip_config.FREQUENCY_PERCENT_THRESHOLD = 1/10 := by
  refine ⟨?_, ?_, ?_, rfl, rfl, rfl⟩
  · unfold check_frequency
    split <;> simp_all
  · unfold check_frequency
    split <;> simp_all
  · rw [frequency_stage, List.getElem?_map]

/-- C4: on a track with at least one row, the classifier ends with every
row labelled `SKIP` or `NON_SKIP`; no row remains unset. -/
theorem claim_C4 (cfg : SkipConfig) (ds : List TrackLength) (hne : ds ≠ []) :
    ∀ r ∈ determine_skips_for_track cfg ds,
      r.skip = some .SKIP ∨ r.skip = some .NON_SKIP := by
  intro r hr
  rw [determine_skips_for_track, default_stage, List.mem_map] at hr
  obtain ⟨x, -, rfl⟩ := hr
  by_cases h : x.skip = some SkipState.NON_SKIP <;> simp [h]

/-- C4 at a concrete track: the single 15-second duration of track U. -/
theorem claim_C4_witness :
    (⟨15000, 1, 1, some .NON_SKIP⟩ : TrackLength).skip = some .SKIP ∨
      (⟨15000, 1, 1, some .NON_SKIP⟩ : TrackLength).skip = some .NON_SKIP :=
  claim_C4 default_skip_config [⟨15000, 1, 1, none⟩] (by decide)
    ⟨15000, 1, 1, some .NON_SKIP⟩
    (by norm_num [determine_skips_for_track, default_stage, proximity_stage,
      fallback_stage, frequency_stage, check_frequency, check_duration,
      shortest_non_skip, min_of, default_skip_config, List.filter])

/-- C7: the classifier is a deterministic function of the rows' input
fields (durations, frequencies, percent_listens, in their order) and the
thresholds — two row lists with the same input fields are labelled
identically, whatever their previous `skip` values — and it is idempotent:
re-running it on its own output reproduces exactly the same rows. -/
theorem claim_C7 (cfg : SkipConfig) (ds ds' : List TrackLength)
    (h : ds.map TrackLength.inputs = ds'.map TrackLength.inputs) :
    determine_skips_for_track cfg ds = determine_skips_for_track cfg ds' ∧
    determine_skips_for_track cfg (determine_skips_for_track cfg ds) =
      determine_skips_for_track cfg ds := by
  constructor
  · unfold determine_skips_for_track
    rw [frequency_stage_congr cfg h]
  · calc determine_skips_for_track cfg (determine_skips_for_track cfg ds)
        = default_stage (proximity_stage cfg (fallback_stage cfg
            (frequency_stage cfg (determine_skips_for_track cfg ds)))) := rfl
      _ = default_stage (proximity_stage cfg (fallback_stage cfg
            (frequency_stage cfg ds))) := by
          rw [frequency_stage_congr cfg
            (inputs_determine_skips_for_track cfg ds)]
      _ = determine_skips_for_track cfg ds := rfl

/-- C7 at a concrete track: stale labels in the `skip` column do not change
the outcome, and the classifier is idempotent there. -/
theorem claim_C7_witness :
    determine_skips_for_track default_skip_config
        [⟨15000, 1, 1, some .SKIP⟩] =
      determine_skips_for_track default_skip_config [⟨15000, 1, 1, none⟩] ∧
    determine_skips_for_track default_skip_config
        (determine_skips_for_track default_skip_config
          [⟨15000, 1, 1, some .SKIP⟩]) =
      determine_skips_for_track default_skip_config
        [⟨15000, 1, 1, some .SKIP⟩] :=
  claim_C7 default_skip_config [⟨15000, 1, 1, some .SKIP⟩]
    [⟨15000, 1, 1, none⟩] (by decide)

/-- C10: when the shortest duration labelled `NON_SKIP` before the
proximity stage is exactly 0 ms, `check_duration`'s truthiness test treats
it like having no `NON_SKIP` duration at all: the proximity stage promotes
nothing (it is the identity), and every row not already `NON_SKIP` — in
particular every still-unset row — ends labelled `SKIP`. -/
theorem claim_C10 (cfg : SkipConfig) (ds : List TrackLength)
    (h : shortest_non_skip (fallback_stage cfg (frequency_stage cfg ds)) =
      some 0) :
    proximity_stage cfg (fallback_stage cfg (frequency_stage cfg ds)) =
      fallback_stage cfg (frequency_stage cfg ds) ∧
    List.Forall₂ (fun d r =>
        r.skip = if d.skip = some .NON_SKIP then some .NON_SKIP
          else some .SKIP)
      (fallback_stage cfg (frequency_stage cfg ds))
      (determine_skips_for_track cfg ds) := by
  have hp : proximity_stage cfg (fallback_stage cfg (frequency_stage cfg ds)) =
      fallback_stage cfg (frequency_stage cfg ds) :=
    proximity_stage_degenerate cfg _ (Or.inr h)
  refine ⟨hp, ?_⟩
  rw [determine_skips_for_track, hp, default_stage]
  rw [List.forall₂_map_right_iff, List.forall₂_same]
  intro d _
  by_cases hd : d.skip = some SkipState.NON_SKIP <;> simp [hd]

/-- C10 at a concrete track: a 0 ms duration that qualified through the
frequency stage freezes the proximity stage; the 5-second duration stays
unpromoted and ends `SKIP`. -/
theorem claim_C10_witness :
    proximity_stage default_skip_config
        (fallback_stage default_skip_config
          (frequency_stage default_skip_config
            [⟨0, 6, 1, none⟩, ⟨5000, 1, 1, none⟩])) =
      fallback_stage default_skip_config
        (frequency_stage default_skip_config
          [⟨0, 6, 1, none⟩, ⟨5000, 1, 1, none⟩]) ∧
    List.Forall₂ (fun d r =>
        r.skip = if d.skip = some .NON_SKIP then some .NON_SKIP
          else some .SKIP)
      (fallback_stage default_skip_config
        (frequency_stage default_skip_config
          [⟨0, 6, 1, none⟩, ⟨5000, 1, 1, none⟩]))
      (determine_skips_for_track default_skip_config
        [⟨0, 6, 1, none⟩, ⟨5000, 1, 1, none⟩]) :=
  claim_C10 default_skip_config [⟨0, 6, 1, none⟩, ⟨5000, 1, 1, none⟩]
    (by norm_num [fallback_stage, frequency_stage, check_frequency,
      shortest_non_skip, min_of, default_skip_config, List.filter])

/-- C2, counterexample to the claim as stated.  Track with buckets supplied
shortest-first: `[(5000 ms, freq 1), (20000 ms, freq 1)]`.  Stage 1 labels
nothing (first conjunct); the longest recorded duration, 20000 ms, clears
`MIN_TRACK_LENGTH = 10000` (second conjunct), so the claim — which demands
this "regardless of the order in which the track's duration buckets are
supplied" — requires it to be labelled `NON_SKIP`; but the source applies
the fallback to `durations[0]` (5000 ms, below the threshold), so the whole
track, the longest duration included, ends `SKIP` (third conjunct). -/
theorem claim_C2_counterexample :
    frequency_stage default_skip_config
        [⟨5000, 1, 1/2, none⟩, ⟨20000, 1, 1/2, none⟩] =
      [⟨5000, 1, 1/2, none⟩, ⟨20000, 1, 1/2, none⟩] ∧
    default_skip_config.MIN_TRACK_LENGTH ≤ ((20000 : ℕ) : ℚ) ∧
    determine_skips_for_track default_skip_config
        [⟨5000, 1, 1/2, none⟩, ⟨20000, 1, 1/2, none⟩] =
      [⟨5000, 1, 1/2, some .SKIP⟩, ⟨20000, 1, 1/2, some .SKIP⟩] := by
  refine ⟨?_, ?_, ?_⟩
  · norm_num [frequency_stage, check_frequency, default_skip_config]
  · norm_num [default_skip_config]
  · norm_num [determine_skips_for_track, default_stage, proximity_stage,
      fallback_stage, frequency_stage, check_frequency, check_duration,
      shortest_non_skip, min_of, default_skip_config, List.filter]
    all_goals exact fun h => nomatch h

/-- C2 as amended: *under the source's ordering precondition* — the first
bucket carries the maximal `ms_played` — for a track whose stage 1 labelled
no duration, the fallback labels the longest duration (the first bucket),
and only it, `NON_SKIP` iff its `ms_played ≥ MIN_TRACK_LENGTH`; otherwise
every bucket stays unset there and the track ends entirely `SKIP`.  Without
that precondition the fallback still applies to the first bucket, so the
outcome depends on the supplied order (see the counterexample). -/
theorem claim_C2_amended (cfg : SkipConfig) (d0 : TrackLength)
    (rest : List TrackLength)
    (hfreq : ∀ d ∈ d0 :: rest,
      check_frequency cfg d.frequency d.percent_listens = none)
    (hlongest : ∀ d ∈ d0 :: rest, d.ms_played ≤ d0.ms_played) :
    (∃ r rs, fallback_stage cfg (frequency_stage cfg (d0 :: rest)) = r :: rs ∧
      r.ms_played = d0.ms_played ∧
      (r.skip = some .NON_SKIP ↔ cfg.MIN_TRACK_LENGTH ≤ (d0.ms_played : ℚ)) ∧
      ∀ x ∈ rs, x.skip = none) ∧
    (¬ cfg.MIN_TRACK_LENGTH ≤ (d0.ms_played : ℚ) →
      ∀ x ∈ determine_skips_for_track cfg (d0 :: rest),
        x.skip = some .SKIP) := by
  have hfs : frequency_stage cfg (d0 :: rest) =
      ({ d0 with skip := none } : TrackLength) ::
        rest.map fun d => { d with skip := none } := by
    rw [frequency_stage, List.map_cons,
      hfreq d0 (List.mem_cons_self d0 rest)]
    refine congrArg _ (List.map_congr_left fun d hd => ?_)
    rw [hfreq d (List.mem_cons_of_mem d0 hd)]
  have hany : (frequency_stage cfg (d0 :: rest)).any
      (fun d => d.skip.isSome) = false := by
    rw [hfs]
    simp
  have hfb : fallback_stage cfg (frequency_stage cfg (d0 :: rest)) =
      if cfg.MIN_TRACK_LENGTH ≤ (d0.ms_played : ℚ) then
        ({ d0 with skip := some .NON_SKIP } : TrackLength) ::
          rest.map (fun d => { d with skip := none })
      else ({ d0 with skip := none } : TrackLength) ::
          rest.map fun d => { d with skip := none } := by
    rw [fallback_stage.eq_def, hany, hfs]
    simp only [Bool.false_eq_true, if_false]
  constructor
  · by_cases hm : cfg.MIN_TRACK_LENGTH ≤ (d0.ms_played : ℚ)
    · refine ⟨{ d0 with skip := some .NON_SKIP },
        rest.map (fun d => { d with skip := none }), ?_, rfl, ?_, ?_⟩
      · rw [hfb, if_pos hm]
      · simpa using hm
      · intro x hx
        obtain ⟨y, -, rfl⟩ := List.mem_map.mp hx
        rfl
    · refine ⟨{ d0 with skip := none },
        rest.map (fun d => { d with skip := none }), ?_, rfl, ?_, ?_⟩
      · rw [hfb, if_neg hm]
      · simpa using hm
      · intro x hx
        obtain ⟨y, -, rfl⟩ := List.mem_map.mp hx
        rfl
  · intro hm x hx
    have hall : ∀ y ∈ fallback_stage cfg (frequency_stage cfg (d0 :: rest)),
        y.skip = none := by
      rw [hfb, if_neg hm]
      intro y hy
      rcases List.mem_cons.mp hy with rfl | hy'
      · rfl
      · obtain ⟨z, -, rfl⟩ := List.mem_map.mp hy'
        rfl
    have hsns : shortest_non_skip
        (fallback_stage cfg (frequency_stage cfg (d0 :: rest))) = none := by
      rw [shortest_non_skip]
      have : (fallback_stage cfg (frequency_stage cfg (d0 :: rest))).filter
          (fun d => d.skip = some SkipState.NON_SKIP) = [] := by
        rw [List.filter_eq_nil_iff]
        intro y hy
        simp [hall y hy]
      rw [this]
      rfl
    rw [determine_skips_for_track,
      proximity_stage_degenerate cfg _ (Or.inl hsns), default_stage] at hx
    obtain ⟨y, hy, rfl⟩ := List.mem_map.mp hx
    simp [hall y hy]

/-- C2 amended, at a concrete track: buckets supplied longest-first,
`[(20000 ms, freq 1), (5000 ms, freq 1)]`; stage 1 labels nothing, and the
fallback labels the head — the longest duration — `NON_SKIP`. -/
theorem claim_C2_amended_witness :
    ∃ r rs, fallback_stage default_skip_config
        (frequency_stage default_skip_config
          [⟨20000, 1, 1, none⟩, ⟨5000, 1, 1, none⟩]) = r :: rs ∧
      r.ms_played = 20000 ∧
      (r.skip = some .NON_SKIP ↔
        default_skip_config.MIN_TRACK_LENGTH ≤ ((20000 : ℕ) : ℚ)) ∧
      ∀ x ∈ rs, x.skip = none :=
  (claim_C2_amended default_skip_config ⟨20000, 1, 1, none⟩
    [⟨5000, 1, 1, none⟩]
    (by intro d hd
        fin_cases hd <;>
          norm_num [check_frequency, default_skip_config])
    (by intro d hd
        fin_cases hd <;> norm_num)).1

/-- C3, counterexample to the claim as stated.  Track with buckets
`[(0 ms, freq 6), (5000 ms, freq 1)]`: the 0 ms bucket qualifies through
the frequency stage, so entering the proximity stage `shortest_non_skip`
exists and equals 0 (first conjunct), and the still-unset 5000 ms bucket
satisfies `5000 ≥ (1 − margin) × 0` (second conjunct); the claim therefore
requires it to be promoted to `NON_SKIP`, but the source's truthiness test
skips a zero `shortest_non_skip` and the bucket ends `SKIP` (third
conjunct). -/
theorem claim_C3_counterexample :
    shortest_non_skip (fallback_stage default_skip_config
      (frequency_stage default_skip_config
        [⟨0, 6, 6/7, none⟩, ⟨5000, 1, 1/7, none⟩])) = some 0 ∧
    (1 - default_skip_config.SKIP_ERROR_MARGIN) * ((0 : ℕ) : ℚ) ≤
      ((5000 : ℕ) : ℚ) ∧
    determine_skips_for_track default_skip_config
        [⟨0, 6, 6/7, none⟩, ⟨5000, 1, 1/7, none⟩] =
      [⟨0, 6, 6/7, some .NON_SKIP⟩, ⟨5000, 1, 1/7, some .SKIP⟩] := by
  refine ⟨?_, ?_, ?_⟩
  · norm_num [fallback_stage, frequency_stage, check_frequency,
      shortest_non_skip, min_of, default_skip_config, List.filter]
  · norm_num [default_skip_config]
  · norm_num [determine_skips_for_track, default_stage, proximity_stage,
      fallback_stage, frequency_stage, check_frequency, check_duration,
      shortest_non_skip, min_of, default_skip_config, List.filter]
    all_goals exact fun h => nomatch h

/-- C3 as amended: in the proximity stage a still-unset duration is
promoted to `NON_SKIP` iff `shortest_non_skip` exists, **is nonzero**, and
the duration is at least `(1 − SKIP_DURATION_ERROR_MARGIN) ×
shortest_non_skip` (inclusive); durations already `NON_SKIP` pass through
unchanged; and when no `NON_SKIP` duration exists — or the shortest one is
0 ms — the stage promotes nothing at all. -/
theorem claim_C3_amended (cfg : SkipConfig) (ds : List TrackLength) :
    List.Forall₂ (fun d r =>
        r.ms_played = d.ms_played ∧ r.frequency = d.frequency ∧
        r.percent_listens = d.percent_listens ∧
        (r.skip = some .NON_SKIP ↔ d.skip = some .NON_SKIP ∨
          ∃ s, shortest_non_skip ds = some s ∧ s ≠ 0 ∧
            (1 - cfg.SKIP_ERROR_MARGIN) * (s : ℚ) ≤ (d.ms_played : ℚ)) ∧
        (d.skip = some .NON_SKIP → r = d))
      ds (proximity_stage cfg ds) ∧
    (shortest_non_skip ds = none → proximity_stage cfg ds = ds) ∧
    (shortest_non_skip ds = some 0 → proximity_stage cfg ds = ds) := by
  refine ⟨?_, fun h => proximity_stage_degenerate cfg ds (Or.inl h),
    fun h => proximity_stage_degenerate cfg ds (Or.inr h)⟩
  rw [proximity_stage, List.forall₂_map_right_iff, List.forall₂_same]
  intro d _
  refine ⟨rfl, rfl, rfl, ?_, ?_⟩
  · show check_duration cfg d.ms_played (shortest_non_skip ds) d.skip =
      some .NON_SKIP ↔ _
    unfold check_duration
    by_cases hd : d.skip = some SkipState.NON_SKIP
    · simp [hd]
    · rw [if_neg hd]
      cases hsh : shortest_non_skip ds with
      | none => simp [hd]
      | some s =>
        dsimp only
        by_cases hc : s ≠ 0 ∧
            (1 - cfg.SKIP_ERROR_MARGIN) * (s : ℚ) ≤ (d.ms_played : ℚ)
        · rw [if_pos hc]
          exact ⟨fun _ => Or.inr ⟨s, rfl, hc.1, hc.2⟩, fun _ => rfl⟩
        · rw [if_neg hc]
          constructor
          · intro hh
            exact (hd hh).elim
          · rintro (hh | ⟨s', hs', hns, hle⟩)
            · exact hh
            · cases Option.some.inj hs'
              exact (hc ⟨hns, hle⟩).elim
  · intro hd
    have : check_duration cfg d.ms_played (shortest_non_skip ds) d.skip =
        some SkipState.NON_SKIP := by
      unfold check_duration
      rw [if_pos hd]
    rw [this, ← hd]

/-- C3 amended, at a concrete track with no `NON_SKIP` duration: the
proximity stage promotes nothing. -/
theorem claim_C3_amended_witness :
    proximity_stage default_skip_config [⟨7000, 1, 1, none⟩] =
      [⟨7000, 1, 1, none⟩] :=
  (claim_C3_amended default_skip_config [⟨7000, 1, 1, none⟩]).2.1 (by decide)

theorem is_date_missing_eq_true_iff (d : PDate) (dds : List PDate) :
    is_date_missing d dds = true ↔ ∀ e ∈ dds,
      ¬(date_le (minus_one_year e) d = true ∧ date_le d e = true) := by
  rw [is_date_missing]
  simp [List.any_eq_true]

theorem is_date_missing_eq_false_iff (d : PDate) (dds : List PDate) :
    is_date_missing d dds = false ↔ ∃ e ∈ dds,
      date_le (minus_one_year e) d = true ∧ date_le d e = true := by
  rw [is_date_missing]
  simp [List.any_eq_true]

theorem missing_dates_pipeline_eq (dds : List PDate)
    (rows : List CalendarRow) :
    missing_dates_pipeline dds rows = rows.map fun d =>
      { d with is_missing := !d.has_listen && is_date_missing d.day dds } := by
  rw [missing_dates_pipeline, correct_date_anomalies, identify_missing_dates,
    List.map_map]
  refine List.map_congr_left fun d _ => ?_
  cases hl : d.has_listen <;> cases hmd : is_date_missing d.day dds <;>
    simp [Function.comp, hl, hmd]

/-- C5: after the missing-date pass and the anomaly correction, a calendar
row is flagged missing iff it has no listen and lies outside the inclusive
interval `[E − 1 year, E]` of every download end date `E`; one covering
batch suffices to clear the flag; and consequently `is_missing` implies
`NOT has_listen` on every row. -/
theorem claim_C5 (dds : List PDate) (rows : List CalendarRow)
    (r : CalendarRow) (hr : r ∈ missing_dates_pipeline dds rows) :
    (r.is_missing = true ↔ (r.has_listen = false ∧
      ∀ e ∈ dds, ¬(date_le (minus_one_year e) r.day = true ∧
        date_le r.day e = true))) ∧
    ((∃ e ∈ dds, date_le (minus_one_year e) r.day = true ∧
        date_le r.day e = true) → r.is_missing = false) ∧
    (r.is_missing = true → r.has_listen = false) := by
  rw [missing_dates_pipeline_eq, List.mem_map] at hr
  obtain ⟨x, -, rfl⟩ := hr
  refine ⟨?_, ?_, ?_⟩
  · show (!x.has_listen && is_date_missing x.day dds) = true ↔
      x.has_listen = false ∧ _
    cases hl : x.has_listen
    · simp only [Bool.not_false, Bool.true_and]
      rw [is_date_missing_eq_true_iff]
      simp
    · simp [Bool.not_true, Bool.false_and]
  · intro he
    show (!x.has_listen && is_date_missing x.day dds) = false
    rw [(is_date_missing_eq_false_iff x.day dds).mpr he, Bool.and_false]
  · intro hm
    cases hl : x.has_listen
    · rfl
    · rw [hl] at hm
      simp at hm

/-- C5 at a concrete calendar: a listenless day inside the single batch's
one-year window is not flagged missing. -/
theorem claim_C5_witness :
    ({ day := ⟨2021, 1, 2⟩, has_listen := false, is_missing := false } :
      CalendarRow).is_missing = false :=
  (claim_C5 [⟨2021, 6, 1⟩]
    [{ day := ⟨2021, 1, 2⟩, has_listen := false, is_missing := false }]
    { day := ⟨2021, 1, 2⟩, has_listen := false, is_missing := false }
    (by decide)).2.1 (by decide)

/-- C6, evaluated at the failing input.  Listens end at minutes 825
(2021-01-01 13:45, calendar day 0) and 1920 (2021-01-02 08:00, calendar
day 1).  `list_dates` receives the raw `DATETIME` values, so it emits a
single row anchored at minute 825: the inclusive range of calendar days
{0, 1} is not enumerated — day 1 has a listen but gets no row — refuting
the claim that one row is produced per calendar day between the earliest
and latest listen dates. -/
theorem claim_C6 :
    list_dates [825, 1920] = some [{ day := 825, has_listen := true }] ∧
    calendar_day 825 = 0 ∧ calendar_day 1920 = 1 := by
  refine ⟨by decide, by decide, by decide⟩

/-- C8, evaluated at the failing input.  With every threshold absent from
the project's configuration store, the source classifier still completes
and labels the track using the constants hard-coded in `skips.py` (first
conjunct), whereas the spec's contract aborts (second conjunct); the
hard-coded constants coincide with the store's declared defaults (last
conjunct). -/
theorem claim_C8 :
    determine_skips_given_store empty_config_store [[⟨5000, 1, 1, none⟩]] =
      some [[⟨5000, 1, 1, some .SKIP⟩]] ∧
    determine_skips_spec empty_config_store [[⟨5000, 1, 1, none⟩]] = none ∧
    empty_config_store .MIN_NON_SKIP_TRACK_LENGTH = none ∧
    default_skip_config =
      ⟨declared_default .MIN_NON_SKIP_TRACK_LENGTH,
        declared_default .MIN_NON_SKIP_FREQUENCY_THRESHOLD,
        declared_default .MIN_NON_SKIP_FREQUENCY_PERCENT_THRESHOLD,
        declared_default .ABSOLUTE_NON_SKIP_FREQUENCY_THRESHOLD,
        declared_default .SKIP_DURATION_ERROR_MARGIN⟩ := by
  refine ⟨?_, rfl, rfl, rfl⟩
  rw [determine_skips_given_store, Option.some_inj]
  norm_num [determine_skips, determine_skips_for_track, default_stage,
    proximity_stage, fallback_stage, frequency_stage, check_frequency,
    check_duration, shortest_non_skip, min_of, default_skip_config,
    List.filter]
  all_goals exact fun h => nomatch h

/-- C9, evaluated at the failing input: on a project with no listens the
distinct-`end_time` list is empty and `list_dates` fails (the source
evaluates `dates_incl[0]`, raising `IndexError`) instead of producing an
empty calendar. -/
theorem claim_C9 : list_dates ([] : List ℤ) = none := rfl

end Spotiviz
